import Mathlib

/-!
Verification development for the dcvgan repository (src/logger.py, src/trainer.py,
src/util.py, src/infer.py).  Python code is shallowly embedded: floats are
modelled as rationals (ℚ), numpy arrays as shape-carrying index functions,
fallible calls return Option (Option.none = a raised exception), and the
mutable Logger/Trainer objects become explicit state values.
-/

/-! ## Generic string/number helpers used by the embedded code -/

/-- Pad a string on the left with `'0'` up to width `w` (Python zero-padding,
as in a `0.3f` fractional part or a `06d` file index). -/
def zeroPad (w : Nat) (s : String) : String :=
  String.mk (List.replicate (w - s.length) '0') ++ s

/-- Pad a string on the left with spaces up to width `w`
(Python right-justified fixed-width column format). -/
def rjust (w : Nat) (s : String) : String :=
  String.mk (List.replicate (w - s.length) ' ') ++ s

/-- Round a rational to the nearest integer, ties to even — the rounding used
by Python float formatting. -/
def roundHalfEven (q : ℚ) : Int :=
  if q - ⌊q⌋ < 1/2 then ⌊q⌋
  else if 1/2 < q - ⌊q⌋ then ⌊q⌋ + 1
  else if 2 ∣ ⌊q⌋ then ⌊q⌋ else ⌊q⌋ + 1

/-- Python fixed-point formatting of a float with 3 decimals
(the `0.3f` format used by `Logger._log`). -/
def fmt3 (q : ℚ) : String :=
  (if q < 0 then "-" else "")
    ++ toString ((roundHalfEven (q * 1000)).natAbs / 1000)
    ++ "."
    ++ zeroPad 3 (toString ((roundHalfEven (q * 1000)).natAbs % 1000))

/-- Python `int(...)` applied to a float: truncation toward zero. -/
def pyInt (q : ℚ) : Int :=
  if 0 ≤ q then ⌊q⌋ else -⌊-q⌋

/-- Python `str(...)` of a numeric metric value (used by the `Integer` branch
of `Logger._log`; an int prints its decimal digits). -/
def pyStr (q : ℚ) : String :=
  if q.den = 1 then toString q.num else toString q.num ++ "/" ++ toString q.den

/-- Python `str(datetime.timedelta(seconds=secs))`: `H:MM:SS`, preceded by a
`D day(s), ` part when at least one day is involved (negative totals borrow a
negative day count, as `datetime` does). -/
def timedeltaStr (secs : Int) : String :=
  let days := Int.ediv secs 86400
  let r := (Int.emod secs 86400).toNat
  let hms := toString (r / 3600) ++ ":" ++ zeroPad 2 (toString (r % 3600 / 60))
    ++ ":" ++ zeroPad 2 (toString (r % 60))
  if days = 0 then hms
  else if days = 1 ∨ days = -1 then toString days ++ " day, " ++ hms
  else toString days ++ " days, " ++ hms

/-! ## src/logger.py — metric registry and logger -/

namespace DLog

/-- The `MetricType` enum from logger.py (Integer = 1, Float = 2, Loss = 3,
Time = 4).  `Metric.__init__` validates membership in this enum; the Lean
type makes that check vacuous. -/
inductive MetricType where
  | Integer
  | Float
  | Loss
  | Time
deriving DecidableEq, Repr

/-- The dynamically-typed `Metric.value` slot: `None`, a scalar, or the
accumulating list used by `Loss` metrics. -/
inductive MValue where
  | vnone
  | num (q : ℚ)
  | vlist (l : List ℚ)
deriving DecidableEq, Repr

/-- A registered metric: type tag, display priority, tensorboard mirror flag,
current value, and the `params["start_time"]` baseline stored for `Time`
metrics at definition time. -/
structure Metric where
  mtype : MetricType
  priority : Int
  log_to_tensorboard : Bool
  value : MValue
  params_start_time : Option ℚ
deriving DecidableEq, Repr

/-- The logger's mutable state: the ordered metric registry
(`OrderedDict[str, Metric]`, keys unique, order = display order). -/
structure LoggerState where
  metrics : List (String × Metric)
deriving DecidableEq, Repr

/-- Stable insertion of an entry into a list already sorted by descending
priority: the new entry goes after all entries with priority ≥ its own. -/
def insertDesc (x : String × Metric) : List (String × Metric) → List (String × Metric)
  | [] => [x]
  | y :: ys => if x.2.priority ≤ y.2.priority then y :: insertDesc x ys else x :: y :: ys

/-- Model of Python's stable `sorted(self.metrics.items(), key=priority,
reverse=True)` in `Logger.define`: descending priority, ties keep insertion
order. -/
def sortByPriorityDesc (l : List (String × Metric)) : List (String × Metric) :=
  l.foldl (fun acc x => insertDesc x acc) []

/-- The fresh `Metric` built by `Logger.define`: value is `None` for
Integer/Float, `[]` for Loss, `0` for Time (with the current timestamp
recorded as `params["start_time"]`). -/
def defineMetric (mtype : MetricType) (priority : Int) (tensorboard : Bool) (now : ℚ) : Metric :=
  match mtype with
  | .Integer => ⟨mtype, priority, tensorboard, MValue.vnone, Option.none⟩
  | .Float => ⟨mtype, priority, tensorboard, MValue.vnone, Option.none⟩
  | .Loss => ⟨mtype, priority, tensorboard, MValue.vlist [], Option.none⟩
  | .Time => ⟨mtype, priority, tensorboard, MValue.num 0, some now⟩

/-- Model of the `OrderedDict` assignment `self.metrics[name] = metric`: replace in place
if the key exists, else append at the end. -/
def odAssign (ms : List (String × Metric)) (name : String) (m : Metric) :
    List (String × Metric) :=
  if (List.lookup name ms).isSome then
    ms.map (fun km => if km.1 = name then (km.1, m) else km)
  else ms ++ [(name, m)]

/-- Model of `Logger.define(name, mtype, priority, tensorboard)`: register (or silently
overwrite) a metric, then re-sort the registry by descending priority.
`now` stands for the ambient `time.time()`. -/
def define (lg : LoggerState) (name : String) (mtype : MetricType)
    (priority : Int) (tensorboard : Bool) (now : ℚ) : LoggerState :=
  ⟨sortByPriorityDesc (odAssign lg.metrics name (defineMetric mtype priority tensorboard now))⟩

/-- Model of `Logger.__init__`: starts with the three built-in metrics
`epoch` (Integer, 100), `iteration` (Integer, 99), `elapsed_time` (Time, -1),
none mirrored to tensorboard. -/
def init (now : ℚ) : LoggerState :=
  define (define (define ⟨[]⟩ "epoch" .Integer 100 false now)
    "iteration" .Integer 99 false now) "elapsed_time" .Time (-1) false now

/-- Mutation of the metric object stored under `name`
(`m = self.metrics[name]; m.<field> = ...`). -/
def setMetric (lg : LoggerState) (name : String) (m : Metric) : LoggerState :=
  ⟨lg.metrics.map (fun km => if km.1 = name then (km.1, m) else km)⟩

/-- Model of `Logger.update(name, value)`: scalar types replace the value, Loss appends
to the accumulator, Time stores `value - params["start_time"]`.
`Option.none` models the `KeyError` raised by `self.metrics[name]` for an
unregistered name (and the unreachable type mismatches on `m.value`). -/
def update (lg : LoggerState) (name : String) (value : ℚ) : Option LoggerState :=
  match List.lookup name lg.metrics with
  | Option.none => Option.none
  | some m =>
    match m.mtype with
    | .Integer => some (setMetric lg name { m with value := MValue.num value })
    | .Float => some (setMetric lg name { m with value := MValue.num value })
    | .Loss =>
      match m.value with
      | MValue.vlist l => some (setMetric lg name { m with value := MValue.vlist (l ++ [value]) })
      | _ => Option.none
    | .Time =>
      match m.params_start_time with
      | some b => some (setMetric lg name { m with value := MValue.num (value - b) })
      | Option.none => Option.none

/-- The per-metric reset performed by `Logger.clear`: Integer/Float back to
`None`, Loss back to `[]`, Time left untouched. -/
def clearMetric (m : Metric) : Metric :=
  match m.mtype with
  | .Integer => { m with value := MValue.vnone }
  | .Float => { m with value := MValue.vnone }
  | .Loss => { m with value := MValue.vlist [] }
  | .Time => m

/-- Model of `Logger.clear()`: reset every registered metric in place. -/
def clear (lg : LoggerState) : LoggerState :=
  ⟨lg.metrics.map (fun km => (km.1, clearMetric km.2))⟩

/-- The per-metric value string `s` computed inside `Logger._log`:
Integer → decimal or `-`, Float → 3-decimal or `-`, Loss → 3-decimal mean of
the accumulator or the padded placeholder `" - "` when empty,
Time → `timedelta` rendering of `int(value)`.  The empty-string branches are
unreachable (a metric's value slot always matches its type tag). -/
def renderMetricValue (m : Metric) : String :=
  match m.mtype with
  | .Integer =>
    match m.value with
    | MValue.vnone => "-"
    | MValue.num q => pyStr q
    | MValue.vlist _ => ""
  | .Float =>
    match m.value with
    | MValue.vnone => "-"
    | MValue.num q => fmt3 q
    | MValue.vlist _ => ""
  | .Loss =>
    match m.value with
    | MValue.vlist vs => if vs.length = 0 then " - " else fmt3 (vs.sum / (vs.length : ℚ))
    | _ => ""
  | .Time =>
    match m.value with
    | MValue.num q => timedeltaStr (pyInt q)
    | _ => ""

/-- The full line emitted by `Logger._log`: each metric's value string in a
15-wide right-justified column followed by a space, in registry order. -/
def renderLine (lg : LoggerState) : String :=
  lg.metrics.foldl (fun acc km => acc ++ rjust 15 (renderMetricValue km.2) ++ " ") ""

/-- The header line emitted by `Logger.print_header`. -/
def renderHeader (lg : LoggerState) : String :=
  lg.metrics.foldl (fun acc km => acc ++ rjust 15 km.1 ++ " ") ""

/-- The loop body of `Logger.tf_log_scalars`: walk the registry in order
keeping the Python local variable `value` (`lastVal`), which Time metrics
read without assigning (stale value, or a `NameError` — `Option.none` — if no
scalar was emitted before).  Emits `(name, value)` pairs for the metrics
mirrored to tensorboard. -/
def tfScalarsGo (step : MValue) :
    List (String × Metric) → Option ℚ → List (String × ℚ) → Option (List (String × ℚ))
  | [], _, acc => some acc.reverse
  | (name, m) :: rest, lastVal, acc =>
    if m.log_to_tensorboard = false then tfScalarsGo step rest lastVal acc
    else
      match m.mtype with
      | .Integer =>
        match m.value with
        | MValue.vnone => tfScalarsGo step rest lastVal acc
        | MValue.num v => tfScalarsGo step rest (some v) ((name, v) :: acc)
        | MValue.vlist _ => Option.none
      | .Float =>
        match m.value with
        | MValue.vnone => tfScalarsGo step rest lastVal acc
        | MValue.num v => tfScalarsGo step rest (some v) ((name, v) :: acc)
        | MValue.vlist _ => Option.none
      | .Loss =>
        match m.value with
        | MValue.vlist l =>
          if l.length = 0 then tfScalarsGo step rest lastVal acc
          else tfScalarsGo step rest (some (l.sum / (l.length : ℚ)))
            ((name, l.sum / (l.length : ℚ)) :: acc)
        | _ => Option.none
      | .Time =>
        match lastVal with
        | some v => tfScalarsGo step rest (some v) ((name, v) :: acc)
        | Option.none => Option.none

/-- Model of `Logger.tf_log_scalars(x_axis_metric)`: raises (`Option.none`) when the
x-axis name is unregistered or its metric is not Integer/Float; otherwise
emits the mirrored scalars at step `x_metric.value`. -/
def tf_log_scalars (lg : LoggerState) (x_axis_metric : String) : Option (List (String × ℚ)) :=
  match List.lookup x_axis_metric lg.metrics with
  | Option.none => Option.none
  | some xm =>
    match xm.mtype with
    | .Integer => tfScalarsGo xm.value lg.metrics Option.none []
    | .Float => tfScalarsGo xm.value lg.metrics Option.none []
    | .Loss => Option.none
    | .Time => Option.none

end DLog

/-! ## src/trainer.py — real-batch sampling and the logging phase -/

namespace DTrain

/-- The trainer state relevant to `sample_real_batch`.  `Trainer.__init__`
sets `self.data_enumerater = enumerate(dataloader)` (position 0); the reset
line in `sample_real_batch` assigns to a differently spelled attribute
`self.data_enumerator`, which `next()` never reads. -/
structure TrainerState (α : Type) where
  dataloader : List α
  data_enumerater : Nat
  data_enumerator : Option Nat
deriving DecidableEq, Repr

/-- Model of `Trainer.__init__`'s enumerator setup. -/
def initTrainer {α : Type} (dataloader : List α) : TrainerState α :=
  ⟨dataloader, 0, Option.none⟩

/-- Model of `Trainer.sample_real_batch`: `next(self.data_enumerater)` (`Option.none`
models the uncaught `StopIteration` on an exhausted enumerator); when the
drawn index is the last one, a fresh enumerator is stored — into the
misspelled attribute `data_enumerator`.  The `.cuda()`/`.float()` casts are
identities in this model. -/
def sample_real_batch {α : Type} (s : TrainerState α) : Option (α × TrainerState α) :=
  match s.dataloader.get? s.data_enumerater with
  | Option.none => Option.none
  | some batch =>
    let batch_idx := s.data_enumerater
    let s1 : TrainerState α := { s with data_enumerater := s.data_enumerater + 1 }
    let s2 := if batch_idx = s.dataloader.length - 1
      then { s1 with data_enumerator := some 0 } else s1
    some (batch, s2)

/-- The batch returned by the `i`-th call (0-indexed) to `sample_real_batch`,
starting from state `s`; `Option.none` if any call up to the `i`-th raised. -/
def nthSample {α : Type} : TrainerState α → Nat → Option α
  | s, 0 => (sample_real_batch s).map (fun p => p.1)
  | s, n + 1 =>
    match sample_real_batch s with
    | Option.none => Option.none
    | some p => nthSample p.2 n

/-- The call `logger.next_iter()` at trainer.py:137: the `Logger` class
defines no method named `next_iter`, so the call raises `AttributeError`. -/
def next_iter (_lg : DLog.LoggerState) : Option DLog.LoggerState :=
  Option.none

/-- The logging phase of `Trainer.train` (trainer.py:134-137): push the three
scalar losses into the logger, then call `logger.next_iter()`. -/
def logging_phase (lg : DLog.LoggerState) (loss_gen loss_idis loss_vdis : ℚ) :
    Option DLog.LoggerState :=
  (DLog.update lg "loss_gen" loss_gen).bind (fun lg1 =>
    (DLog.update lg1 "loss_idis" loss_idis).bind (fun lg2 =>
      (DLog.update lg2 "loss_vdis" loss_vdis).bind (fun lg3 =>
        next_iter lg3)))

end DTrain

/-! ## src/util.py — tensor/value conversions and the video grid -/

namespace DUtil

/-- Model of `np.clip(x, lo, hi)` on one element. -/
def np_clip (x lo hi : ℚ) : ℚ := min (max x lo) hi

/-- Model of `astype` to uint8 on one float element: C-style truncation toward zero,
reduced modulo 2^8. -/
def np_uint8_cast (q : ℚ) : Nat := (Int.emod (pyInt q) 256).toNat

/-- The per-element value transform of `images_to_numpy` (util.py:50-52):
clip to [-1, 1], rescale by `(x + 1) / 2 * 255`, cast to uint8.  The axis
permutation `(B, C, H, W) -> (B, H, W, C)` does not touch values. -/
def images_to_numpy_elem (x : ℚ) : Nat :=
  np_uint8_cast ((np_clip x (-1) 1 + 1) / 2 * 255)

/-- The per-element value transform of `videos_to_numpy` (util.py:74-76):
identical to the image variant. -/
def videos_to_numpy_elem (x : ℚ) : Nat :=
  np_uint8_cast ((np_clip x (-1) 1 + 1) / 2 * 255)

/-- A 5-axis numpy array: shape `(s0, s1, s2, s3, s4)` plus the element at
each multi-index (row-major storage is reflected in how `reshape` re-labels
indices below). -/
structure Arr5 where
  s0 : Nat
  s1 : Nat
  s2 : Nat
  s3 : Nat
  s4 : Nat
  dat : Nat → Nat → Nat → Nat → Nat → ℚ

/-- A 6-axis numpy array. -/
structure Arr6 where
  s0 : Nat
  s1 : Nat
  s2 : Nat
  s3 : Nat
  s4 : Nat
  s5 : Nat
  dat : Nat → Nat → Nat → Nat → Nat → Nat → ℚ

/-- A 4-axis numpy array. -/
structure Arr4 where
  s0 : Nat
  s1 : Nat
  s2 : Nat
  s3 : Nat
  dat : Nat → Nat → Nat → Nat → ℚ

/-- Row-major flat offset of a 5-dim index (strides from the trailing
dimensions).  Used only to justify the reshape steps below. -/
def pos5 (d1 d2 d3 d4 i0 i1 i2 i3 i4 : Nat) : Nat :=
  (((i0 * d1 + i1) * d2 + i2) * d3 + i3) * d4 + i4

/-- Row-major flat offset of a 6-dim index. -/
def pos6 (d1 d2 d3 d4 d5 i0 i1 i2 i3 i4 i5 : Nat) : Nat :=
  ((((i0 * d1 + i1) * d2 + i2) * d3 + i3) * d4 + i4) * d5 + i5

/-- Row-major flat offset of a 4-dim index. -/
def pos4 (d1 d2 d3 i0 i1 i2 i3 : Nat) : Nat :=
  ((i0 * d1 + i1) * d2 + i2) * d3 + i3

/-- Model of `videos.transpose(1, 2, 0, 3, 4)` (util.py:106): new axis k reads old
axis (1,2,0,3,4)[k]. -/
def transpose5_12034 (a : Arr5) : Arr5 :=
  ⟨a.s1, a.s2, a.s0, a.s3, a.s4, fun i0 i1 i2 i3 i4 => a.dat i2 i0 i1 i3 i4⟩

/-- Model of `videos.reshape(C, T, rows, cols, H, W)` (util.py:107): row-major split of
axis 2 (size `rows*cols`) into `(rows, cols)` — index `(r, j)` reads old index
`r*cols + j` (see `pos6_split_eq_pos5`). -/
def reshape5_split2 (a : Arr5) (rows cols : Nat) : Arr6 :=
  ⟨a.s0, a.s1, rows, cols, a.s3, a.s4,
    fun i0 i1 i2 i3 i4 i5 => a.dat i0 i1 (i2 * cols + i3) i4 i5⟩

/-- Model of `videos.transpose(0, 1, 2, 4, 3, 5)` (util.py:108): swap axes 3 and 4. -/
def transpose6_012435 (a : Arr6) : Arr6 :=
  ⟨a.s0, a.s1, a.s2, a.s4, a.s3, a.s5,
    fun i0 i1 i2 i3 i4 i5 => a.dat i0 i1 i2 i4 i3 i5⟩

/-- Model of `videos.reshape(C, T, rows*H, cols*W)` (util.py:109): row-major merge of
the adjacent axis pairs (2,3) and (4,5) — merged index `y` reads
`(y / H, y % H)` (see `pos4_merge_eq_pos6`). -/
def reshape6_merge (a : Arr6) : Arr4 :=
  ⟨a.s0, a.s1, a.s2 * a.s3, a.s4 * a.s5,
    fun i0 i1 i2 i3 => a.dat i0 i1 (i2 / a.s3) (i2 % a.s3) (i3 / a.s5) (i3 % a.s5)⟩

/-- The successful branch of `make_video_grid` (util.py:106-112): the three
axis manipulations followed by `videos[None]` (a new leading axis of size
1). -/
def make_video_grid_core (videos : Arr5) (rows cols : Nat) : Arr5 :=
  let v4 := reshape6_merge (transpose6_012435 (reshape5_split2 (transpose5_12034 videos) rows cols))
  ⟨1, v4.s0, v4.s1, v4.s2, v4.s3, fun _ i1 i2 i3 i4 => v4.dat i1 i2 i3 i4⟩

/-- Model of `make_video_grid(videos, rows, cols)` (util.py:81-112): `Option.none`
models the `assert N == rows * cols` failing. -/
def make_video_grid (videos : Arr5) (rows cols : Nat) : Option Arr5 :=
  if videos.s0 = rows * cols then some (make_video_grid_core videos rows cols)
  else Option.none

/-- Model of `np.stack(l)`: raises `ValueError` (`Option.none`) on an empty list,
otherwise stacks the frames. -/
def np_stack {β : Type} (l : List β) : Option (List β) :=
  if l.isEmpty then Option.none else some l

/-- Model of `calc_optical_flow(video)` (util.py:115-137): for each of the
`len(video) - 1` consecutive frame pairs, convert both frames to grayscale
(`cvtColorGray` models `cv2.cvtColor(..., COLOR_BGR2GRAY)`) and run the
fixed-parameter Farneback estimator (`farneback` models
`cv2.calcOpticalFlowFarneback(f1, f2, None, 0.5, 3, 15, 3, 5, 1.2, 0)`),
then `np.stack` the collected flows. -/
def calc_optical_flow {α γ β : Type} [Inhabited α]
    (cvtColorGray : α → γ) (farneback : γ → γ → β) (video : List α) : Option (List β) :=
  np_stack ((List.range (video.length - 1)).map (fun i =>
    farneback (cvtColorGray (video.getD i default)) (cvtColorGray (video.getD (i + 1) default))))

end DUtil

/-! ## src/infer.py — batch generation and file naming -/

namespace DInfer

/-- Python `range(start, stop, step)` for a positive step: elements
`start + step*i` for `i < ceil((stop - start) / step)` (`range(..., 0)`
raises `ValueError`, modelled as the empty list). -/
def pyRange (start stop step : Nat) : List Nat :=
  if step = 0 then []
  else (List.range ((stop - start + step - 1) / step)).map (fun i => start + step * i)

/-- The number of samples returned by `generate_samples(ggen, cgen, num,
batchsize)` (util.py:237-296): one `batchsize`-sized batch per element of
`range(0, num, batchsize)`, concatenated and truncated by `[:num]`. -/
def generate_samples_len (num batchsize : Nat) : Nat :=
  min ((pyRange 0 num batchsize).length * batchsize) num

/-- Zero-padded six-digit video file name, per the format call at infer.py:80-83. -/
def mp4_name (i : Nat) : String :=
  zeroPad 6 (toString i) ++ ".mp4"

/-- The logical sample indices written by the generation loop of
`infer.main` (infer.py:71-84): for each `offset` in
`range(0, n_samples, batchsize)` it writes one file per element of the batch
returned by `generate_samples(ggen, cgen, batchsize, batchsize)`, at index
`offset + i`.  The same index list is written to both `save_dir/color` and
`save_dir/<geometric_info name>`. -/
def infer_file_indices (n_samples batchsize : Nat) : List Nat :=
  (pyRange 0 n_samples batchsize).flatMap (fun offset =>
    (List.range (generate_samples_len batchsize batchsize)).map (fun i => offset + i))

/-- The file names written into each of the two output directories. -/
def infer_files (n_samples batchsize : Nat) : List String :=
  (infer_file_indices n_samples batchsize).map mp4_name

/-- The number of outer generation batches `len(range(0, n_samples,
batchsize))`. -/
def numBatches (n_samples batchsize : Nat) : Nat :=
  (pyRange 0 n_samples batchsize).length

end DInfer

/-- The end-to-end scenario of C1: a logger created at time 0, a `loss`
metric defined with Loss type and priority 0, then `update("loss", 2.0)` and
`update("loss", 4.0)`. -/
def lossScenario : Option DLog.LoggerState :=
  (DLog.update (DLog.define (DLog.init 0) "loss" DLog.MetricType.Loss 0 true 0) "loss" 2).bind
    (fun lg => DLog.update lg "loss" 4)

/-! ## Registry lookup lemmas -/

/-- Looking a key up after mutating the metric stored under `name` finds the
new metric, provided the key was present. -/
theorem lookup_setMetric_map (name : String) (nm : DLog.Metric) :
    ∀ ms : List (String × DLog.Metric), (∃ m, List.lookup name ms = some m) →
      List.lookup name (ms.map (fun km => if km.1 = name then (km.1, nm) else km)) = some nm := by
  intro ms
  induction ms with
  | nil => rintro ⟨m, hm⟩; simp [List.lookup] at hm
  | cons km rest ih =>
    obtain ⟨k, v⟩ := km
    rintro ⟨m, hm⟩
    by_cases h : name = k
    · subst h
      rw [List.map_cons, if_pos rfl]
      simp [List.lookup]
    · have hbeq : (name == k) = false := beq_eq_false_iff_ne.mpr h
      rw [List.map_cons, if_neg (fun hc : k = name => h hc.symm)]
      simp only [List.lookup, hbeq] at hm ⊢
      exact ih ⟨m, hm⟩

/-- Looking a key up in a registry whose metrics were all rewritten by `f`. -/
theorem lookup_map_metrics (f : DLog.Metric → DLog.Metric) (name : String) :
    ∀ ms : List (String × DLog.Metric),
      List.lookup name (ms.map (fun km => (km.1, f km.2))) = (List.lookup name ms).map f := by
  intro ms
  induction ms with
  | nil => rfl
  | cons km rest ih =>
    obtain ⟨k, v⟩ := km
    by_cases h : name = k
    · subst h
      simp [List.lookup]
    · have hbeq : (name == k) = false := beq_eq_false_iff_ne.mpr h
      rw [List.map_cons]
      simp only [List.lookup, hbeq]
      exact ih

/-! ## Euclidean decomposition lemmas for the video grid -/

/-- Uniqueness of the Euclidean decomposition `r * b + s` with `s < b`. -/
theorem euclid_div_mod_unique {b r s r' s' : Nat} (hs : s < b) (hs' : s' < b)
    (h : r * b + s = r' * b + s') : r = r' ∧ s = s' := by
  have key : ∀ u v x : Nat, x < b → u < v → ∀ y, u * b + x < v * b + y := by
    intro u v x hx huv y
    calc u * b + x < u * b + b := by omega
    _ = (u + 1) * b := by ring
    _ ≤ v * b := mul_le_mul_right' (by omega) b
    _ ≤ v * b + y := Nat.le_add_right _ _
  rcases Nat.lt_trichotomy r r' with hlt | heq | hgt
  · exact absurd h (Nat.ne_of_lt (key r r' s hs hlt s'))
  · subst heq
    exact ⟨rfl, by omega⟩
  · exact absurd h.symm (Nat.ne_of_lt (key r' r s' hs' hgt s))

/-- Recover the two components of `q * H + h` when `h < H`. -/
theorem split_div_mod (q h H : Nat) (hh : h < H) :
    (q * H + h) / H = q ∧ (q * H + h) % H = h := by
  have hH : 0 < H := lt_of_le_of_lt (Nat.zero_le h) hh
  have e : q * H + h = H * q + h := by ring
  constructor
  · rw [e, Nat.mul_add_div hH, Nat.div_eq_of_lt hh, Nat.add_zero]
  · rw [e, Nat.mul_add_mod, Nat.mod_eq_of_lt hh]

/-! ## Claim C2 -/

/-- C2: the real-batch sampler is claimed to cycle through a length-L data
source forever (call i returns batch i mod L).  In the code the reset writes
the misspelled attribute `data_enumerator` while `next()` keeps reading the
exhausted `data_enumerater`, so with a length-1 dataloader call 0 returns
batch 0 but call 1 raises `StopIteration` (`Option.none`) instead of
returning batch `1 % 1 = 0` again. -/
theorem C2_sampler_stops_instead_of_cycling :
    DTrain.nthSample (DTrain.initTrainer [(42 : Nat)]) 0 = some 42
    ∧ DTrain.nthSample (DTrain.initTrainer [(42 : Nat)]) 1 = Option.none
    ∧ [(42 : Nat)].get? (1 % [(42 : Nat)].length) = some 42 :=
  ⟨rfl, rfl, rfl⟩

/-! ## Claim C3 -/

/-- C3: the logging phase is claimed to push the three losses into the logger
and advance the iteration counter.  On the logger actually built by the
trainer (whose only metrics are epoch, iteration and elapsed_time) the very
first `update("loss_gen", ...)` raises `KeyError` — no loss metric is ever
defined — and `logger.next_iter()` would raise `AttributeError` besides, so
the phase always raises for every loss triple. -/
theorem C3_logging_phase_always_raises :
    ∀ (t0 a b c : ℚ), DTrain.logging_phase (DLog.init t0) a b c = Option.none :=
  fun _ _ _ _ => rfl

/-! ## Claim C5 -/

/-- C5: `update` on an unregistered metric name raises (invalid-key error),
and `tf_log_scalars` raises when its x-axis metric name is unregistered or
names a metric whose type is not Integer or Float. -/
theorem C5_undefined_metric_raises :
    (∀ (lg : DLog.LoggerState) (name : String) (v : ℚ),
        List.lookup name lg.metrics = Option.none → DLog.update lg name v = Option.none)
    ∧ (∀ (lg : DLog.LoggerState) (x : String),
        List.lookup x lg.metrics = Option.none → DLog.tf_log_scalars lg x = Option.none)
    ∧ (∀ (lg : DLog.LoggerState) (x : String) (m : DLog.Metric),
        List.lookup x lg.metrics = some m →
        m.mtype ≠ DLog.MetricType.Integer → m.mtype ≠ DLog.MetricType.Float →
        DLog.tf_log_scalars lg x = Option.none) := by
  refine ⟨?_, ?_, ?_⟩
  · intro lg name v h
    simp only [DLog.update, h]
  · intro lg x h
    simp only [DLog.tf_log_scalars, h]
  · intro lg x m h hI hF
    simp only [DLog.tf_log_scalars, h]
    cases hmt : m.mtype with
    | Integer => exact absurd hmt hI
    | Float => exact absurd hmt hF
    | Loss => rfl
    | Time => rfl

/-- Witness for C5 on the freshly constructed logger: `loss_gen` and `nope`
are unregistered, and `elapsed_time` is a Time metric. -/
theorem C5_witness :
    DLog.update (DLog.init 0) "loss_gen" 1 = Option.none
    ∧ DLog.tf_log_scalars (DLog.init 0) "nope" = Option.none
    ∧ DLog.tf_log_scalars (DLog.init 0) "elapsed_time" = Option.none :=
  ⟨C5_undefined_metric_raises.1 (DLog.init 0) "loss_gen" 1 rfl,
   C5_undefined_metric_raises.2.1 (DLog.init 0) "nope" rfl,
   C5_undefined_metric_raises.2.2 (DLog.init 0) "elapsed_time"
     ⟨DLog.MetricType.Time, -1, false, DLog.MValue.num 0, some 0⟩ rfl
     (by decide) (by decide)⟩

/-! ## Claim C6 -/

/-- C6: a Time metric records `t - baseline` on update, where the baseline
timestamp is captured when the metric is defined; `clear()` leaves Time
metrics untouched while Integer/Float metrics become absent and Loss
accumulators become empty. -/
theorem C6_time_baseline_and_clear :
    (∀ (p : Int) (tb : Bool) (now : ℚ),
        (DLog.defineMetric DLog.MetricType.Time p tb now).params_start_time = some now
        ∧ (DLog.defineMetric DLog.MetricType.Time p tb now).value = DLog.MValue.num 0)
    ∧ (∀ (lg : DLog.LoggerState) (name : String) (m : DLog.Metric) (t b : ℚ),
        List.lookup name lg.metrics = some m → m.mtype = DLog.MetricType.Time →
        m.params_start_time = some b →
        DLog.update lg name t
          = some (DLog.setMetric lg name { m with value := DLog.MValue.num (t - b) })
        ∧ List.lookup name
            (DLog.setMetric lg name { m with value := DLog.MValue.num (t - b) }).metrics
          = some { m with value := DLog.MValue.num (t - b) })
    ∧ (∀ (lg : DLog.LoggerState) (name : String) (m : DLog.Metric),
        List.lookup name lg.metrics = some m →
        List.lookup name (DLog.clear lg).metrics = some (DLog.clearMetric m)
        ∧ (m.mtype = DLog.MetricType.Time → DLog.clearMetric m = m)
        ∧ ((m.mtype = DLog.MetricType.Integer ∨ m.mtype = DLog.MetricType.Float) →
            (DLog.clearMetric m).value = DLog.MValue.vnone)
        ∧ (m.mtype = DLog.MetricType.Loss →
            (DLog.clearMetric m).value = DLog.MValue.vlist [])) := by
  refine ⟨?_, ?_, ?_⟩
  · intro p tb now
    exact ⟨rfl, rfl⟩
  · intro lg name m t b hlk hmt hb
    constructor
    · simp only [DLog.update, hlk, hmt, hb]
    · simp only [DLog.setMetric]
      exact lookup_setMetric_map name _ lg.metrics ⟨m, hlk⟩
  · intro lg name m hlk
    refine ⟨?_, ?_, ?_, ?_⟩
    · simp only [DLog.clear]
      rw [lookup_map_metrics, hlk, Option.map_some']
    · intro hmt
      simp [DLog.clearMetric, hmt]
    · rintro (hmt | hmt) <;> simp [DLog.clearMetric, hmt]
    · intro hmt
      simp [DLog.clearMetric, hmt]

/-- Witness for C6: the built-in `elapsed_time` metric of a logger created at
time 0, updated at time 7, and the effect of `clear` on it. -/
theorem C6_witness :
    ((DLog.defineMetric DLog.MetricType.Time (-1) false 5).params_start_time = some 5
      ∧ (DLog.defineMetric DLog.MetricType.Time (-1) false 5).value = DLog.MValue.num 0)
    ∧ (DLog.update (DLog.init 0) "elapsed_time" 7
        = some (DLog.setMetric (DLog.init 0) "elapsed_time"
            ⟨DLog.MetricType.Time, -1, false, DLog.MValue.num (7 - 0), some 0⟩)
      ∧ List.lookup "elapsed_time"
          (DLog.setMetric (DLog.init 0) "elapsed_time"
            ⟨DLog.MetricType.Time, -1, false, DLog.MValue.num (7 - 0), some 0⟩).metrics
        = some ⟨DLog.MetricType.Time, -1, false, DLog.MValue.num (7 - 0), some 0⟩)
    ∧ (DLog.clearMetric ⟨DLog.MetricType.Time, -1, false, DLog.MValue.num 0, some 0⟩
        = ⟨DLog.MetricType.Time, -1, false, DLog.MValue.num 0, some 0⟩) :=
  ⟨C6_time_baseline_and_clear.1 (-1) false 5,
   C6_time_baseline_and_clear.2.1 (DLog.init 0) "elapsed_time"
     ⟨DLog.MetricType.Time, -1, false, DLog.MValue.num 0, some 0⟩ 7 0 rfl rfl rfl,
   (C6_time_baseline_and_clear.2.2 ⟨[("x", ⟨DLog.MetricType.Time, -1, false,
       DLog.MValue.num 0, some 0⟩)]⟩ "x"
     ⟨DLog.MetricType.Time, -1, false, DLog.MValue.num 0, some 0⟩ rfl).2.1 rfl⟩

/-! ## Claim C9 -/

/-- C9: the optical-flow computation raises on videos with fewer than two
frames — the list of pairwise flows is empty, and `np.stack([])` raises —
and for T ≥ 2 frames it returns T-1 stacked flow fields. -/
theorem C9_optical_flow_frame_count :
    ∀ {α γ β : Type} [Inhabited α] (cvt : α → γ) (fb : γ → γ → β) (video : List α),
      (video.length ≤ 1 → DUtil.calc_optical_flow cvt fb video = Option.none)
      ∧ (2 ≤ video.length →
          ∃ fl, DUtil.calc_optical_flow cvt fb video = some fl
            ∧ fl.length = video.length - 1) := by
  intro α γ β _ cvt fb video
  constructor
  · intro h
    have h0 : video.length - 1 = 0 := by omega
    simp [DUtil.calc_optical_flow, h0, DUtil.np_stack]
  · intro h
    have hne : ((List.range (video.length - 1)).map (fun i =>
        fb (cvt (video.getD i default)) (cvt (video.getD (i + 1) default)))) ≠ [] := by
      apply List.length_pos.mp
      simp only [List.length_map, List.length_range]
      omega
    have hni : ¬(((List.range (video.length - 1)).map (fun i =>
        fb (cvt (video.getD i default)) (cvt (video.getD (i + 1) default)))).isEmpty = true) := by
      rw [List.isEmpty_iff]
      exact hne
    refine ⟨(List.range (video.length - 1)).map (fun i =>
        fb (cvt (video.getD i default)) (cvt (video.getD (i + 1) default))), ?_, ?_⟩
    · unfold DUtil.calc_optical_flow DUtil.np_stack
      rw [if_neg hni]
    · simp only [List.length_map, List.length_range]

/-- Witness for C9: a one-frame video raises, a three-frame video yields two
flow fields. -/
theorem C9_witness :
    (DUtil.calc_optical_flow (fun n : Nat => n) (fun a b => a + b) [5] = Option.none)
    ∧ (∃ fl, DUtil.calc_optical_flow (fun n : Nat => n) (fun a b => a + b) [1, 2, 3] = some fl
        ∧ fl.length = ([1, 2, 3] : List Nat).length - 1) :=
  ⟨(C9_optical_flow_frame_count (fun n : Nat => n) (fun a b => a + b) [5]).1 (by decide),
   (C9_optical_flow_frame_count (fun n : Nat => n) (fun a b => a + b) [1, 2, 3]).2 (by decide)⟩

/-! ## Claim C4 -/

/-- C4: grid tiling is a bijection on pixel content.  For N = rows*cols the
pixel of clip n at (c, t, h, w) lands at output position
(0, c, t, (n/cols)*H + h, (n%cols)*W + w); that cell-position map is
injective on the input index space and onto the output pixel grid; and for
N ≠ rows*cols the assertion fails. -/
theorem C4_grid_tiling_bijection :
    (∀ (v : DUtil.Arr5) (rows cols : Nat), v.s0 ≠ rows * cols →
        DUtil.make_video_grid v rows cols = Option.none)
    ∧ (∀ (v : DUtil.Arr5) (rows cols : Nat), v.s0 = rows * cols →
        DUtil.make_video_grid v rows cols = some (DUtil.make_video_grid_core v rows cols)
        ∧ (∀ n c t h w, n < v.s0 → h < v.s3 → w < v.s4 →
            (DUtil.make_video_grid_core v rows cols).dat 0 c t
              (n / cols * v.s3 + h) (n % cols * v.s4 + w) = v.dat n c t h w)
        ∧ (∀ n h w n' h' w', n < v.s0 → h < v.s3 → w < v.s4 →
            n' < v.s0 → h' < v.s3 → w' < v.s4 →
            n / cols * v.s3 + h = n' / cols * v.s3 + h' →
            n % cols * v.s4 + w = n' % cols * v.s4 + w' →
            n = n' ∧ h = h' ∧ w = w')
        ∧ (∀ y x, y < rows * v.s3 → x < cols * v.s4 →
            ∃ n h w, n < v.s0 ∧ h < v.s3 ∧ w < v.s4
              ∧ y = n / cols * v.s3 + h ∧ x = n % cols * v.s4 + w)) := by
  constructor
  · intro v rows cols hne
    simp [DUtil.make_video_grid, hne]
  · intro v rows cols hN
    refine ⟨by simp [DUtil.make_video_grid, hN], ?_, ?_, ?_⟩
    · intro n c t h w _ hh hw
      simp only [DUtil.make_video_grid_core, DUtil.reshape6_merge, DUtil.transpose6_012435,
        DUtil.reshape5_split2, DUtil.transpose5_12034]
      obtain ⟨e1, e2⟩ := split_div_mod (n / cols) h v.s3 hh
      obtain ⟨e3, e4⟩ := split_div_mod (n % cols) w v.s4 hw
      rw [e1, e2, e3, e4]
      have en : n / cols * cols + n % cols = n := by
        rw [mul_comm]
        exact Nat.div_add_mod n cols
      rw [en]
    · intro n h w n' h' w' hn hh hw hn' hh' hw' hy hx
      obtain ⟨ed, eh⟩ := euclid_div_mod_unique hh hh' hy
      obtain ⟨em, ew⟩ := euclid_div_mod_unique hw hw' hx
      refine ⟨?_, eh, ew⟩
      have u1 := Nat.div_add_mod n cols
      have u2 := Nat.div_add_mod n' cols
      rw [← u1, ← u2, ed, em]
    · intro y x hy hx
      have hH : 0 < v.s3 := by
        rcases Nat.eq_zero_or_pos v.s3 with h0 | hp
        · rw [h0, Nat.mul_zero] at hy
          omega
        · exact hp
      have hW : 0 < v.s4 := by
        rcases Nat.eq_zero_or_pos v.s4 with h0 | hp
        · rw [h0, Nat.mul_zero] at hx
          omega
        · exact hp
      have hyH : y / v.s3 < rows := (Nat.div_lt_iff_lt_mul hH).2 hy
      have hxW : x / v.s4 < cols := (Nat.div_lt_iff_lt_mul hW).2 hx
      refine ⟨y / v.s3 * cols + x / v.s4, y % v.s3, x % v.s4, ?_,
        Nat.mod_lt _ hH, Nat.mod_lt _ hW, ?_, ?_⟩
      · rw [hN]
        calc y / v.s3 * cols + x / v.s4 < y / v.s3 * cols + cols := by omega
        _ = (y / v.s3 + 1) * cols := by ring
        _ ≤ rows * cols := mul_le_mul_right' (by omega) cols
      · obtain ⟨d1, _⟩ := split_div_mod (y / v.s3) (x / v.s4) cols hxW
        rw [d1, mul_comm]
        exact (Nat.div_add_mod y v.s3).symm
      · obtain ⟨_, m1⟩ := split_div_mod (y / v.s3) (x / v.s4) cols hxW
        rw [m1, mul_comm]
        exact (Nat.div_add_mod x v.s4).symm

/-- Witness for C4: a mismatched batch of 3 is rejected by a 2-by-2 grid, and
in a 1-by-2 grid of two one-pixel clips, clip 1's pixel lands in the right
cell and is recovered unchanged. -/
theorem C4_witness :
    DUtil.make_video_grid ⟨3, 1, 1, 1, 1, fun _ _ _ _ _ => 0⟩ 2 2 = Option.none
    ∧ (DUtil.make_video_grid_core ⟨2, 1, 1, 1, 1, fun n _ _ _ _ => (n : ℚ)⟩ 1 2).dat 0 0 0
        (1 / 2 * 1 + 0) (1 % 2 * 1 + 0)
      = (⟨2, 1, 1, 1, 1, fun n _ _ _ _ => (n : ℚ)⟩ : DUtil.Arr5).dat 1 0 0 0 0 :=
  ⟨C4_grid_tiling_bijection.1 ⟨3, 1, 1, 1, 1, fun _ _ _ _ _ => 0⟩ 2 2 (by decide),
   (C4_grid_tiling_bijection.2 ⟨2, 1, 1, 1, 1, fun n _ _ _ _ => (n : ℚ)⟩ 1 2 rfl).2.1
     1 0 0 0 0 (by decide) (by decide) (by decide)⟩

/-! ## Claim C10 -/

/-- C10: for a batch with N = rows*cols the grid output has shape exactly
(1, C, T, rows*H, cols*W). -/
theorem C10_grid_output_shape :
    ∀ (v : DUtil.Arr5) (rows cols : Nat), v.s0 = rows * cols →
      DUtil.make_video_grid v rows cols = some (DUtil.make_video_grid_core v rows cols)
      ∧ (DUtil.make_video_grid_core v rows cols).s0 = 1
      ∧ (DUtil.make_video_grid_core v rows cols).s1 = v.s1
      ∧ (DUtil.make_video_grid_core v rows cols).s2 = v.s2
      ∧ (DUtil.make_video_grid_core v rows cols).s3 = rows * v.s3
      ∧ (DUtil.make_video_grid_core v rows cols).s4 = cols * v.s4 := by
  intro v rows cols h
  exact ⟨by simp [DUtil.make_video_grid, h], rfl, rfl, rfl, rfl, rfl⟩

/-! ## Claim C8 -/

/-- Evaluation of `range(0, n, bs)` for positive step: the multiples of `bs` below the
rounded-up bound. -/
theorem pyRange_zero_start (n bs : Nat) (hbs : 0 < bs) :
    DInfer.pyRange 0 n bs = (List.range ((n + bs - 1) / bs)).map (fun i => bs * i) := by
  unfold DInfer.pyRange
  rw [if_neg (Nat.pos_iff_ne_zero.mp hbs)]
  simp

/-- Concatenating `K` consecutive blocks of `bs` images of `f` lists the
images of the first `K * bs` naturals. -/
theorem range_mul_blocks {σ : Type} (f : Nat → σ) (bs : Nat) :
    ∀ K, (List.range K).flatMap (fun j => (List.range bs).map (fun i => f (bs * j + i)))
      = (List.range (K * bs)).map f := by
  intro K
  induction K with
  | zero => simp
  | succ k ih =>
    rw [List.range_succ, List.flatMap_append, ih, Nat.succ_mul, List.range_add,
      List.map_append]
    congr 1
    · simp only [List.flatMap_cons, List.flatMap_nil, List.append_nil, List.map_map]
      apply List.map_congr_left
      intro a _
      simp [Function.comp, Nat.mul_comm]

/-- One generation call with `num = batchsize` returns exactly `batchsize`
samples. -/
theorem generate_samples_len_self (bs : Nat) (hbs : 0 < bs) :
    DInfer.generate_samples_len bs bs = bs := by
  unfold DInfer.generate_samples_len
  rw [pyRange_zero_start bs bs hbs, List.length_map, List.length_range]
  have h1 : (bs + bs - 1) / bs = 1 := by
    have he : bs + bs - 1 = (bs - 1) + bs := by omega
    rw [he, Nat.add_div_right _ hbs, Nat.div_eq_of_lt (by omega)]
  rw [h1, Nat.one_mul, Nat.min_self]

/-- The indices written by the inference loop are exactly
`0, 1, ..., numBatches * batchsize - 1`. -/
theorem infer_file_indices_eq (n bs : Nat) (hbs : 0 < bs) :
    DInfer.infer_file_indices n bs = List.range (DInfer.numBatches n bs * bs) := by
  unfold DInfer.infer_file_indices DInfer.numBatches
  rw [generate_samples_len_self bs hbs, pyRange_zero_start n bs hbs, List.length_map,
    List.length_range, List.flatMap_map]
  have h := range_mul_blocks (fun i => i) bs ((n + bs - 1) / bs)
  simpa using h

/-- The total written count covers the requested sample count but overshoots
by less than one batch. -/
theorem numBatches_mul_bounds (n bs : Nat) (hbs : 0 < bs) :
    n ≤ DInfer.numBatches n bs * bs ∧ DInfer.numBatches n bs * bs < n + bs := by
  unfold DInfer.numBatches
  rw [pyRange_zero_start n bs hbs, List.length_map, List.length_range]
  rcases Nat.eq_zero_or_pos n with h0 | hn
  · subst h0
    have hz : (0 + bs - 1) / bs = 0 := Nat.div_eq_of_lt (by omega)
    rw [hz]
    omega
  · have he : n + bs - 1 = (n - 1) + bs := by omega
    rw [he, Nat.add_div_right _ hbs]
    have hdm := Nat.div_add_mod (n - 1) bs
    have hmod : (n - 1) % bs < bs := Nat.mod_lt _ hbs
    have hqb : ((n - 1) / bs + 1) * bs = bs * ((n - 1) / bs) + bs := by ring
    rw [hqb]
    generalize hB : bs * ((n - 1) / bs) = B at hdm ⊢
    generalize hM : (n - 1) % bs = M at hdm hmod
    omega

/-- When the batch size divides the requested count, the written count is
exactly the requested count. -/
theorem numBatches_mul_of_dvd (n bs : Nat) (hbs : 0 < bs) (hdvd : bs ∣ n) :
    DInfer.numBatches n bs * bs = n := by
  obtain ⟨hle, hlt⟩ := numBatches_mul_bounds n bs hbs
  have hdvd2 : bs ∣ DInfer.numBatches n bs * bs := dvd_mul_left bs _
  have hd : bs ∣ (DInfer.numBatches n bs * bs - n) := Nat.dvd_sub' hdvd2 hdvd
  have hz : DInfer.numBatches n bs * bs - n = 0 :=
    Nat.eq_zero_of_dvd_of_lt hd (by omega)
  omega

/-- C8 counterexample: with `n_samples = 15`, `batchsize = 10`, the loop
writes file index 19 (file `000019.mp4`), beyond the claimed last index
`n_samples - 1 = 14`; the index list is not `0..14`. -/
theorem C8_counterexample :
    19 ∈ DInfer.infer_file_indices 15 10
    ∧ DInfer.infer_file_indices 15 10 ≠ List.range 15
    ∧ "000019.mp4" ∈ DInfer.infer_files 15 10 := by
  refine ⟨by decide, by decide, by decide⟩

/-- C8 (amended): the driver generates in fixed-size batches and writes, per
stream, zero-padded `.mp4` files with consecutive indices starting at 000000;
every full batch is written, so the indices run through
`numBatches * batchsize - 1` where `numBatches = ceil(n_samples/batchsize)` —
at least `n_samples` files and fewer than `n_samples + batchsize`; exactly
`n_samples` files (indices `0..n_samples-1` and no more) when `batchsize`
divides `n_samples`. -/
theorem C8_batched_file_indices :
    ∀ n bs : Nat, 0 < bs →
      DInfer.infer_file_indices n bs = List.range (DInfer.numBatches n bs * bs)
      ∧ DInfer.infer_files n bs = (List.range (DInfer.numBatches n bs * bs)).map DInfer.mp4_name
      ∧ n ≤ DInfer.numBatches n bs * bs
      ∧ DInfer.numBatches n bs * bs < n + bs
      ∧ (bs ∣ n → DInfer.infer_file_indices n bs = List.range n) := by
  intro n bs hbs
  obtain ⟨hle, hlt⟩ := numBatches_mul_bounds n bs hbs
  refine ⟨infer_file_indices_eq n bs hbs, ?_, hle, hlt, ?_⟩
  · unfold DInfer.infer_files
    rw [infer_file_indices_eq n bs hbs]
  · intro hdvd
    rw [infer_file_indices_eq n bs hbs, numBatches_mul_of_dvd n bs hbs hdvd]

/-- Witness for C8 at `n_samples = 15`, `batchsize = 10`. -/
theorem C8_witness :
    DInfer.infer_file_indices 15 10 = List.range (DInfer.numBatches 15 10 * 10)
    ∧ DInfer.infer_files 15 10 = (List.range (DInfer.numBatches 15 10 * 10)).map DInfer.mp4_name
    ∧ 15 ≤ DInfer.numBatches 15 10 * 10
    ∧ DInfer.numBatches 15 10 * 10 < 15 + 10
    ∧ (10 ∣ 15 → DInfer.infer_file_indices 15 10 = List.range 15) :=
  C8_batched_file_indices 15 10 (by decide)

/-! ## Claim C1 -/

/-- Half-even rounding is the identity on (casts of) natural numbers. -/
theorem roundHalfEven_natCast (k : Nat) : roundHalfEven ((k : ℚ)) = (k : Int) := by
  unfold roundHalfEven
  rw [Int.floor_natCast]
  have h0 : ((k : ℚ)) - (((k : Int) : ℚ)) = 0 := by push_cast; ring
  rw [h0]
  norm_num

/-- Three-decimal formatting of a natural number appends `.000`. -/
theorem fmt3_natCast (n : Nat) : fmt3 ((n : ℚ)) = toString n ++ "." ++ "000" := by
  unfold fmt3
  have h1 : ((n : ℚ)) * 1000 = (((n * 1000 : ℕ) : ℚ)) := by push_cast; ring
  rw [h1, roundHalfEven_natCast]
  have hneg : ¬((n : ℚ) < 0) := not_lt.2 (Nat.cast_nonneg n)
  have h2 : (((n * 1000 : ℕ) : Int)).natAbs = n * 1000 := Int.natAbs_ofNat _
  rw [if_neg hneg, h2, Nat.mul_div_cancel _ (by norm_num : (0:ℕ) < 1000),
    Nat.mul_mod_left]
  rfl

/-- C1 counterexample: after `clear()` the value rendered for the `loss`
metric is the padded placeholder `" - "` (logger.py:146), not the bare dash
`"-"` the claim states. -/
theorem C1_counterexample :
    (lossScenario.map (fun lg =>
        (List.lookup "loss" (DLog.clear lg).metrics).map DLog.renderMetricValue))
      = some (some " - ")
    ∧ " - " ≠ "-" := by
  constructor
  · rfl
  · decide

/-- C1 (amended): a Loss metric renders the mean of its accumulated values to
3 decimals; after the scenario's two updates the rendered value is `"3.000"`;
after `clear()` the rendered value is the padded placeholder `" - "` (a dash
surrounded by one space on each side, not the bare `"-"`). -/
theorem C1_loss_mean_render :
    (∀ (m : DLog.Metric) (vs : List ℚ), m.mtype = DLog.MetricType.Loss →
        m.value = DLog.MValue.vlist vs → vs ≠ [] →
        DLog.renderMetricValue m = fmt3 (vs.sum / ((vs.length : ℕ) : ℚ)))
    ∧ (∀ m : DLog.Metric, m.mtype = DLog.MetricType.Loss →
        m.value = DLog.MValue.vlist [] → DLog.renderMetricValue m = " - ")
    ∧ (lossScenario.map (fun lg => (List.lookup "loss" lg.metrics).map DLog.renderMetricValue)
        = some (some "3.000"))
    ∧ (lossScenario.map (fun lg =>
        (List.lookup "loss" (DLog.clear lg).metrics).map DLog.renderMetricValue)
        = some (some " - ")) := by
  have gen : ∀ (m : DLog.Metric) (vs : List ℚ), m.mtype = DLog.MetricType.Loss →
      m.value = DLog.MValue.vlist vs → vs ≠ [] →
      DLog.renderMetricValue m = fmt3 (vs.sum / ((vs.length : ℕ) : ℚ)) := by
    intro m vs hmt hv hne
    simp only [DLog.renderMetricValue, hmt, hv]
    rw [if_neg (fun hc => hne (List.length_eq_zero.mp hc))]
  have hempty : ∀ m : DLog.Metric, m.mtype = DLog.MetricType.Loss →
      m.value = DLog.MValue.vlist [] → DLog.renderMetricValue m = " - " := by
    intro m hmt hv
    simp only [DLog.renderMetricValue, hmt, hv]
    rfl
  refine ⟨gen, hempty, ?_, rfl⟩
  have hrender : (lossScenario.map
      (fun lg => (List.lookup "loss" lg.metrics).map DLog.renderMetricValue))
      = some (some (DLog.renderMetricValue
          ⟨DLog.MetricType.Loss, 0, true, DLog.MValue.vlist [2, 4], Option.none⟩)) := rfl
  have hm3 : DLog.renderMetricValue
      ⟨DLog.MetricType.Loss, 0, true, DLog.MValue.vlist [2, 4], Option.none⟩
      = fmt3 (([2, 4] : List ℚ).sum / ((([2, 4] : List ℚ).length : ℕ) : ℚ)) :=
    gen _ [2, 4] rfl rfl (by decide)
  have harg : (([2, 4] : List ℚ).sum / ((([2, 4] : List ℚ).length : ℕ) : ℚ)) = ((3 : ℕ) : ℚ) := by
    norm_num [List.sum_cons, List.sum_nil]
  have h3000 : fmt3 (((3 : ℕ) : ℚ)) = "3.000" := by
    rw [fmt3_natCast]
    rfl
  rw [hrender, hm3, harg, h3000]

/-- Witness for C1 on a concrete Loss metric holding the accumulator
[2, 4]. -/
theorem C1_witness :
    DLog.renderMetricValue
      ⟨DLog.MetricType.Loss, 0, true, DLog.MValue.vlist [2, 4], Option.none⟩
      = fmt3 (([2, 4] : List ℚ).sum / ((([2, 4] : List ℚ).length : ℕ) : ℚ)) :=
  C1_loss_mean_render.1 _ [2, 4] rfl rfl (by decide)

/-! ## Claim C7 -/

/-- Clipping is the identity on values already inside the interval. -/
theorem np_clip_of_mem (x : ℚ) (h1 : -1 ≤ x) (h2 : x ≤ 1) : DUtil.np_clip x (-1) 1 = x := by
  unfold DUtil.np_clip
  rw [max_eq_left h1, min_eq_left h2]

/-- On a value in [0, 255], the uint8 cast is exactly the floor, and the
result stays at most 255. -/
theorem np_uint8_cast_of_range (u : ℚ) (h0 : 0 ≤ u) (h255 : u ≤ 255) :
    ((DUtil.np_uint8_cast u : Nat) : Int) = ⌊u⌋ ∧ DUtil.np_uint8_cast u ≤ 255 := by
  unfold DUtil.np_uint8_cast pyInt
  rw [if_pos h0]
  have hf0 : 0 ≤ ⌊u⌋ := Int.floor_nonneg.2 h0
  have hc : ((255 : Int) : ℚ) = 255 := by norm_num
  have hf255 : ⌊u⌋ ≤ 255 := by
    have hm := Int.floor_le_floor (α := ℚ) (le_of_le_of_eq h255 hc.symm)
    rwa [Int.floor_intCast] at hm
  have hmod : Int.emod ⌊u⌋ 256 = ⌊u⌋ := Int.emod_eq_of_lt hf0 (by omega)
  rw [hmod]
  constructor
  · exact Int.toNat_of_nonneg hf0
  · omega

/-- C7: the display transform clips to [-1, 1], rescales by (v+1)/2*255 and
truncates to an 8-bit integer; on [-1, 1] the result is in [0, 255]; it is
the identity roundtrip (hence injective) on the 256 representable values
2*y/255 - 1; and the inverse transform recovers the input within one
quantization step (2/255).  The image variant applies the same map. -/
theorem C7_normalize_to_display :
    (∀ x : ℚ, DUtil.videos_to_numpy_elem x = DUtil.videos_to_numpy_elem (DUtil.np_clip x (-1) 1))
    ∧ (∀ x : ℚ, -1 ≤ x → x ≤ 1 → DUtil.videos_to_numpy_elem x ≤ 255)
    ∧ (∀ y : Nat, y ≤ 255 → DUtil.videos_to_numpy_elem (2 * (y : ℚ) / 255 - 1) = y)
    ∧ (∀ x : ℚ, -1 ≤ x → x ≤ 1 →
        |2 * ((DUtil.videos_to_numpy_elem x : Nat) : ℚ) / 255 - 1 - x| ≤ 2 / 255)
    ∧ (∀ x : ℚ, DUtil.images_to_numpy_elem x = DUtil.videos_to_numpy_elem x) := by
  have hclip_lo : ∀ x : ℚ, -1 ≤ DUtil.np_clip x (-1) 1 := by
    intro x
    unfold DUtil.np_clip
    exact le_min (le_max_right x (-1)) (by norm_num)
  have hclip_hi : ∀ x : ℚ, DUtil.np_clip x (-1) 1 ≤ 1 := by
    intro x
    exact min_le_right _ 1
  refine ⟨?_, ?_, ?_, ?_, ?_⟩
  · intro x
    unfold DUtil.videos_to_numpy_elem
    rw [np_clip_of_mem (DUtil.np_clip x (-1) 1) (hclip_lo x) (hclip_hi x)]
  · intro x h1 h2
    unfold DUtil.videos_to_numpy_elem
    rw [np_clip_of_mem x h1 h2]
    have hu0 : 0 ≤ (x + 1) / 2 * 255 := by linarith
    have hu255 : (x + 1) / 2 * 255 ≤ 255 := by linarith
    exact (np_uint8_cast_of_range _ hu0 hu255).2
  · intro y hy
    have hy0 : (0 : ℚ) ≤ (y : ℚ) := Nat.cast_nonneg y
    have hy255 : ((y : ℕ) : ℚ) ≤ 255 := by exact_mod_cast hy
    have h1 : -1 ≤ 2 * (y : ℚ) / 255 - 1 := by linarith
    have h2 : 2 * (y : ℚ) / 255 - 1 ≤ 1 := by linarith
    unfold DUtil.videos_to_numpy_elem
    rw [np_clip_of_mem _ h1 h2]
    have hu : (2 * (y : ℚ) / 255 - 1 + 1) / 2 * 255 = (y : ℚ) := by
      field_simp
      ring
    rw [hu]
    unfold DUtil.np_uint8_cast pyInt
    rw [if_pos hy0, Int.floor_natCast]
    have hmod : Int.emod (y : Int) 256 = (y : Int) :=
      Int.emod_eq_of_lt (by exact_mod_cast Nat.zero_le y) (by exact_mod_cast Nat.lt_succ_of_le hy)
    rw [hmod]
    exact Int.toNat_natCast y
  · intro x h1 h2
    unfold DUtil.videos_to_numpy_elem
    rw [np_clip_of_mem x h1 h2]
    have hu0 : 0 ≤ (x + 1) / 2 * 255 := by linarith
    have hu255 : (x + 1) / 2 * 255 ≤ 255 := by linarith
    obtain ⟨hcast, _⟩ := np_uint8_cast_of_range _ hu0 hu255
    have hfl : ((⌊(x + 1) / 2 * 255⌋ : Int) : ℚ) ≤ (x + 1) / 2 * 255 :=
      Int.floor_le _
    have hfu : (x + 1) / 2 * 255 < ((⌊(x + 1) / 2 * 255⌋ : Int) : ℚ) + 1 :=
      Int.lt_floor_add_one _
    have hq : ((DUtil.np_uint8_cast ((x + 1) / 2 * 255) : Nat) : ℚ)
        = ((⌊(x + 1) / 2 * 255⌋ : Int) : ℚ) := by
      exact_mod_cast congrArg (fun z : Int => (z : ℚ)) hcast
    rw [abs_le, hq]
    constructor
    · linarith
    · linarith
  · intro x
    rfl

/-- Witness for C7: the transform at 0 stays within range and within one
quantization step of its inverse, and the representable value for y = 127
roundtrips exactly. -/
theorem C7_witness :
    DUtil.videos_to_numpy_elem 0 ≤ 255
    ∧ DUtil.videos_to_numpy_elem (2 * ((127 : Nat) : ℚ) / 255 - 1) = 127
    ∧ |2 * ((DUtil.videos_to_numpy_elem 0 : Nat) : ℚ) / 255 - 1 - 0| ≤ 2 / 255 :=
  ⟨C7_normalize_to_display.2.1 0 (by norm_num) (by norm_num),
   C7_normalize_to_display.2.2.1 127 (by norm_num),
   C7_normalize_to_display.2.2.2.1 0 (by norm_num) (by norm_num)⟩

/-- Witness for C10 at a concrete 4-clip batch tiled 2 by 2. -/
theorem C10_witness :
    DUtil.make_video_grid ⟨4, 3, 2, 5, 6, fun _ _ _ _ _ => 0⟩ 2 2
      = some (DUtil.make_video_grid_core ⟨4, 3, 2, 5, 6, fun _ _ _ _ _ => 0⟩ 2 2)
    ∧ (DUtil.make_video_grid_core ⟨4, 3, 2, 5, 6, fun _ _ _ _ _ => 0⟩ 2 2).s0 = 1
    ∧ (DUtil.make_video_grid_core ⟨4, 3, 2, 5, 6, fun _ _ _ _ _ => 0⟩ 2 2).s1 = 3
    ∧ (DUtil.make_video_grid_core ⟨4, 3, 2, 5, 6, fun _ _ _ _ _ => 0⟩ 2 2).s2 = 2
    ∧ (DUtil.make_video_grid_core ⟨4, 3, 2, 5, 6, fun _ _ _ _ _ => 0⟩ 2 2).s3 = 2 * 5
    ∧ (DUtil.make_video_grid_core ⟨4, 3, 2, 5, 6, fun _ _ _ _ _ => 0⟩ 2 2).s4 = 2 * 6 :=
  C10_grid_output_shape ⟨4, 3, 2, 5, 6, fun _ _ _ _ _ => 0⟩ 2 2 rfl
